import Mathlib

/-!
Shallow embedding of `src/App.tsx` from the Real-Time-AI-Conversation
repository: a single React component that runs a timed one-minute voice
conversation with a hosted realtime AI service over a WebRTC data channel,
and reacts to inbound control messages.

The embedding models:
* the component state (`aiState`, `timeRemaining`, `isActive`, `transcript`,
  `imageEffect`) and the mutable refs (`pcRef`, `dataChannelRef`,
  `audioElementRef`, `timerRef`);
* the countdown-timer effect (`useEffect` at lines 20-38);
* `startConversation` (lines 40-205), parameterised by the outcome of its
  awaited steps since network and media calls are external;
* `stopConversation` (lines 207-227);
* the three messages sent in `dc.onopen` (lines 78-137);
* the inbound dispatch `dc.onmessage` (lines 139-180), as a list of effects
  (state setters, scheduled timeout, data-channel sends) produced per branch,
  together with the function applying those effects to the component state.

JavaScript specifics kept faithfully: `JSON.parse` of the raw event data or
of `msg.arguments` can throw, and the whole handler body is wrapped in
`try/catch`, so a throw aborts the branch with no state change; a missing
`msg.transcript` interpolates as the string `undefined`; the truthiness
tests `args.effect` and `if (transcript)` treat the empty string as false.
-/

/-- `const CONVERSATION_DURATION = 60` (App.tsx line 4). -/
def CONVERSATION_DURATION : Nat := 60

/-- `type AIState = 'idle' | 'connecting' | 'listening' | 'thinking' | 'speaking'`
(App.tsx line 6). -/
inductive AIState
  | idle
  | connecting
  | listening
  | thinking
  | speaking
deriving DecidableEq, Repr

/-- The React `useState` fields of the component (App.tsx lines 9-13).
`imageEffect` is a `String` because at runtime the setter receives whatever
string arrives in the tool-call arguments; the TypeScript annotation
`'none' | 'sparkle' | 'heart' | 'star'` is not checked dynamically. -/
structure ComponentState where
  aiState : AIState
  timeRemaining : Nat
  isActive : Bool
  transcript : List String
  imageEffect : String
deriving DecidableEq, Repr

/-- The four `useRef` cells (App.tsx lines 15-18); `true` models a non-null
current value. -/
structure Refs where
  pc : Bool
  dataChannel : Bool
  audioElement : Bool
  timer : Bool
deriving DecidableEq, Repr

/-- Component state together with the refs. -/
structure FullState where
  comp : ComponentState
  refs : Refs
deriving DecidableEq, Repr

/-- The initial render state: `useState('idle')`, `useState(CONVERSATION_DURATION)`,
`useState(false)`, `useState([])`, `useState('none')` (App.tsx lines 9-13). -/
def initState : ComponentState :=
  { aiState := .idle
  , timeRemaining := CONVERSATION_DURATION
  , isActive := false
  , transcript := []
  , imageEffect := "none" }

/-- `stopConversation` restricted to the component state (App.tsx lines
224-226): `setAIState('idle'); setIsActive(false);
setTimeRemaining(CONVERSATION_DURATION)`. Transcript and image effect are
not touched. -/
def stopComp (s : ComponentState) : ComponentState :=
  { s with aiState := .idle, isActive := false, timeRemaining := CONVERSATION_DURATION }

/-- `stopConversation` (App.tsx lines 207-227): each of the four refs is
closed/cleared when non-null and then set to null — so afterwards every ref
is null regardless of its previous value — and the three state setters run
unconditionally. -/
def stopConversation (s : FullState) : FullState :=
  { comp := stopComp s.comp
  , refs := { pc := false, dataChannel := false, audioElement := false, timer := false } }

/-- One firing of the interval callback (App.tsx lines 22-30), guarded by the
`useEffect` condition `isActive && timeRemaining > 0` (line 21) under which
the interval exists at all. A tick with `prev <= 1` calls `stopConversation()`;
the `return 0` of the updater is then overridden by the
`setTimeRemaining(CONVERSATION_DURATION)` that `stopConversation` enqueued,
so the post-tick state is the stop state. A tick with `prev > 1` returns
`prev - 1`. -/
def tick (s : ComponentState) : ComponentState :=
  if s.isActive = true ∧ 0 < s.timeRemaining then
    if s.timeRemaining ≤ 1 then stopComp s
    else { s with timeRemaining := s.timeRemaining - 1 }
  else s

/-- Outcome of the awaited steps of `startConversation`: the session-bootstrap
`fetch` can return a non-ok response (line 57: `throw new Error(...)`), any
other awaited step (`fetch` itself, `response.json()`, `getUserMedia`,
`createOffer`, `setLocalDescription`, the SDP `fetch`, `setRemoteDescription`)
can reject, or everything succeeds. -/
inductive StartOutcome
  | respNotOk
  | stepThrows
  | connected
deriving DecidableEq, Repr

/-- The four state setters at the top of the `try` block (App.tsx lines
42-45): `setAIState('connecting'); setIsActive(true);
setTimeRemaining(CONVERSATION_DURATION); setTranscript([])`. They run before
any awaited step, so they have taken effect by the time anything can throw. -/
def startSetup (s : ComponentState) : ComponentState :=
  { s with aiState := .connecting
         , isActive := true
         , timeRemaining := CONVERSATION_DURATION
         , transcript := [] }

/-- The `try` block of `startConversation` (App.tsx lines 41-198), as an
`Except` whose error carries the thrown message and the component state at
the moment of the throw. `respNotOk` models line 57-59:
`if (!response.ok) throw new Error(data.error || 'Failed to create session')`. -/
def startBody (s : ComponentState) : StartOutcome → Except (String × ComponentState) ComponentState
  | .connected => .ok (startSetup s)
  | .respNotOk => .error ("Failed to create session", startSetup s)
  | .stepThrows => .error ("start step rejected", startSetup s)

/-- `startConversation` (App.tsx lines 40-205): run the `try` block; the
`catch` (lines 200-204) logs and then does `setAIState('idle');
setIsActive(false)`, so no error escapes. -/
def startConversation (s : ComponentState) (o : StartOutcome) : ComponentState :=
  match startBody s o with
  | .ok s1 => s1
  | .error (_, s1) => { s1 with aiState := .idle, isActive := false }

/-- The single tool advertised in the `session.update` sent on data-channel
open (App.tsx lines 86-103). -/
structure SessionToolSpec where
  toolType : String
  name : String
  description : String
  paramEffectEnum : List String
  required : List String
deriving DecidableEq, Repr

/-- The `session` object of the initial `session.update` (App.tsx lines
83-116). The long child-facing `instructions` prose (lines 104-115) is
opaque UI text and is not modelled field by field. -/
structure SessionConfig where
  turnDetectionType : String
  transcriptionModel : String
  tools : List SessionToolSpec
deriving DecidableEq, Repr

/-- Messages the client sends on the data channel (`dc.send(JSON.stringify(...))`).
* `sessionUpdate cfg`: `{ type: 'session.update', session: cfg }` (lines 81-119);
* `userTextItem text`: `{ type: 'conversation.item.create', item: { type:
  'message', role: 'user', content: [{ type: 'input_text', text }] } }`
  (lines 121-134);
* `functionCallOutput cid ok eff`: `{ type: 'conversation.item.create', item:
  { type: 'function_call_output', call_id: cid, output:
  JSON.stringify({ success: ok, effect: eff }) } }` (lines 161-169); a `none`
  field models a JavaScript `undefined`, which `JSON.stringify` omits;
* `responseCreate`: `{ type: 'response.create' }` (lines 136, 170). -/
inductive OutMsg
  | sessionUpdate (cfg : SessionConfig)
  | userTextItem (text : String)
  | functionCallOutput (call_id : Option String) (success : Bool) (effect : Option String)
  | responseCreate
deriving DecidableEq, Repr

/-- The session configuration sent in the first `session.update` (App.tsx
lines 83-116). -/
def sessionUpdateConfig : SessionConfig :=
  { turnDetectionType := "server_vad"
  , transcriptionModel := "whisper-1"
  , tools :=
      [ { toolType := "function"
        , name := "add_effect_to_image"
        , description := "Add a visual effect to the image on screen (sparkle, heart, or star effect)"
        , paramEffectEnum := ["sparkle", "heart", "star"]
        , required := ["effect"] } ] }

/-- The three messages `dc.onopen` sends, in order (App.tsx lines 78-137):
the `session.update`, the user greeting item, and `response.create`. -/
def onOpenMessages : List OutMsg :=
  [ .sessionUpdate sessionUpdateConfig
  , .userTextItem "Hi! Please start our conversation by telling me about this picture!"
  , .responseCreate ]

/-- The parsed `arguments` payload of a tool call (`JSON.parse(msg.arguments)`,
App.tsx line 155). `effect = none` models a payload without an `effect` key. -/
structure Args where
  effect : Option String
deriving DecidableEq, Repr

/-- An inbound message after `JSON.parse(e.data)` succeeded (App.tsx line 141).
Optional fields model JavaScript properties that may be absent (`undefined`).
`arguments = none` models an `arguments` field that is absent or is not valid
JSON, so that `JSON.parse(msg.arguments)` at line 155 throws.
`responseTranscript` is `msg.response?.output?.[0]?.content?.[0]?.transcript`
(line 172), `none` when any link of that optional chain is missing. -/
structure InMsg where
  type : String
  transcript : Option String
  arguments : Option Args
  name : Option String
  call_id : Option String
  responseTranscript : Option String
deriving DecidableEq, Repr

/-- The raw data-channel event payload `e.data`: either a string that
`JSON.parse` rejects, or a parsed message. -/
inductive RawData
  | malformed
  | wellFormed (msg : InMsg)
deriving DecidableEq, Repr

/-- JavaScript template-literal interpolation of a possibly-missing string
field: an absent property prints as `undefined`. -/
def optToString : Option String → String
  | some s => s
  | none => "undefined"

/-- JavaScript truthiness of a possibly-missing string: absent and `""` are
falsy, every other string truthy. -/
def truthy : Option String → Bool
  | some s => s != ""
  | none => false

/-- One side effect performed by a branch of the `dc.onmessage` dispatch:
a state setter, the `setTimeout` that schedules the image-effect reset
(App.tsx line 158), or a `dc.send`. -/
inductive Effect
  | setAIStateEff (a : AIState)
  | appendTranscript (line : String)
  | setImageEffectEff (e : String)
  | scheduleEffectReset
  | send (m : OutMsg)
deriving DecidableEq, Repr

/-- The sequence of side effects the `dc.onmessage` body performs for a parsed
message, following the if/else-if chain (App.tsx lines 144-176) branch by
branch. In the `response.function_call_arguments.done` branch,
`msg.arguments = none` models `JSON.parse(msg.arguments)` throwing at line
155: the surrounding `try/catch` swallows it and the branch performs nothing.
With parsed `args`, the effect is applied only under
`msg.name === 'add_effect_to_image' && args.effect` (line 156), and the
acknowledgment (lines 161-170) is sent unconditionally. In the
`response.done` branch the transcript line is appended only under
`if (transcript)` (line 173). -/
def handlerEffects (msg : InMsg) : List Effect :=
  if msg.type = "session.created" then
    [.setAIStateEff .listening]
  else if msg.type = "response.audio.delta" then
    [.setAIStateEff .speaking]
  else if msg.type = "response.audio.done" then
    [.setAIStateEff .listening]
  else if msg.type = "input_audio_buffer.speech_started" then
    [.setAIStateEff .listening]
  else if msg.type = "conversation.item.input_audio_transcription.completed" then
    [.appendTranscript ("You: " ++ optToString msg.transcript)]
  else if msg.type = "response.function_call_arguments.done" then
    match msg.arguments with
    | none => []
    | some args =>
      (match args.effect with
       | some e =>
         if msg.name = some "add_effect_to_image" ∧ e ≠ "" then
           [.setImageEffectEff e, .scheduleEffectReset]
         else []
       | none => [])
      ++ [.send (.functionCallOutput msg.call_id true args.effect), .send .responseCreate]
  else if msg.type = "response.done" then
    match msg.responseTranscript with
    | some t => if t ≠ "" then [.appendTranscript ("AI: " ++ t)] else []
    | none => []
  else []

/-- Apply one effect to the component state. `scheduleEffectReset` only arms
a timeout (the later firing is the separate `Event.effectReset`), and a
`send` does not change component state. -/
def applyEffect (s : ComponentState) : Effect → ComponentState
  | .setAIStateEff a => { s with aiState := a }
  | .appendTranscript line => { s with transcript := s.transcript ++ [line] }
  | .setImageEffectEff e => { s with imageEffect := e }
  | .scheduleEffectReset => s
  | .send _ => s

/-- Apply a list of effects in order. -/
def applyEffects (s : ComponentState) (es : List Effect) : ComponentState :=
  es.foldl applyEffect s

/-- The data-channel messages among a list of effects, in order. -/
def sendsOf (es : List Effect) : List OutMsg :=
  es.filterMap fun e =>
    match e with
    | .send m => some m
    | _ => none

/-- The whole `dc.onmessage` handler (App.tsx lines 139-180): `JSON.parse`
the raw data inside `try/catch` — a malformed payload throws at line 141 and
is caught with no state change and nothing sent — then run the dispatch
chain, returning the new component state and the messages sent. -/
def handleRaw (s : ComponentState) : RawData → ComponentState × List OutMsg
  | .malformed => (s, [])
  | .wellFormed msg => (applyEffects s (handlerEffects msg), sendsOf (handlerEffects msg))

/-- The message types the dispatch chain recognizes (App.tsx lines 144-171). -/
def handledTypes : List String :=
  [ "session.created"
  , "response.audio.delta"
  , "response.audio.done"
  , "input_audio_buffer.speech_started"
  , "conversation.item.input_audio_transcription.completed"
  , "response.function_call_arguments.done"
  , "response.done" ]

/-- The events that mutate the component state during the component's life:
a `startConversation` call with a given outcome, a timer tick, a
`stopConversation` call, an inbound data-channel message, and the firing of
the `setTimeout(() => setImageEffect('none'), 2000)` armed at line 158. -/
inductive Event
  | start (o : StartOutcome)
  | timerTick
  | stop
  | message (raw : RawData)
  | effectReset

/-- The component-state transition for one event. -/
def step (s : ComponentState) : Event → ComponentState
  | .start o => startConversation s o
  | .timerTick => tick s
  | .stop => stopComp s
  | .message raw => (handleRaw s raw).1
  | .effectReset => { s with imageEffect := "none" }

/-- The component states reachable from the initial render by any sequence
of events. -/
inductive Reachable : ComponentState → Prop
  | init : Reachable initState
  | next {s : ComponentState} (e : Event) : Reachable s → Reachable (step s e)

/-- A concrete parsed tool-call argument payload: `{"effect":"sparkle"}`. -/
def fcArgs : Args := { effect := some "sparkle" }

/-- A concrete `response.function_call_arguments.done` message for the
advertised tool. -/
def fcDoneMsg : InMsg :=
  { type := "response.function_call_arguments.done"
  , transcript := none
  , arguments := some fcArgs
  , name := some "add_effect_to_image"
  , call_id := some "call_001"
  , responseTranscript := none }

/-- A concrete `response.function_call_arguments.done` message whose
`arguments` field is not valid JSON (`JSON.parse` throws at line 155). -/
def badArgsMsg : InMsg :=
  { type := "response.function_call_arguments.done"
  , transcript := none
  , arguments := none
  , name := some "add_effect_to_image"
  , call_id := some "call_002"
  , responseTranscript := none }

/-- A concrete `response.function_call_arguments.done` message naming a tool
the client never advertised. -/
def wrongNameMsg : InMsg :=
  { type := "response.function_call_arguments.done"
  , transcript := none
  , arguments := some fcArgs
  , name := some "play_sound"
  , call_id := some "call_003"
  , responseTranscript := none }

/-- A concrete `response.done` message carrying no output transcript. -/
def respDoneEmptyMsg : InMsg :=
  { type := "response.done"
  , transcript := none
  , arguments := none
  , name := none
  , call_id := none
  , responseTranscript := none }

/-- A concrete well-formed message whose type the dispatch chain does not
recognize. -/
def unknownTypeMsg : InMsg :=
  { type := "rate_limits.updated"
  , transcript := none
  , arguments := none
  , name := none
  , call_id := none
  , responseTranscript := none }

/-! ## Helper lemmas -/

theorem applyEffect_timeRemaining (s : ComponentState) (e : Effect) :
    (applyEffect s e).timeRemaining = s.timeRemaining := by
  cases e <;> rfl

theorem applyEffect_isActive (s : ComponentState) (e : Effect) :
    (applyEffect s e).isActive = s.isActive := by
  cases e <;> rfl

theorem applyEffects_timeRemaining (es : List Effect) (s : ComponentState) :
    (applyEffects s es).timeRemaining = s.timeRemaining := by
  induction es generalizing s with
  | nil => rfl
  | cons e es ih =>
    rw [applyEffects, List.foldl_cons]
    rw [show List.foldl applyEffect (applyEffect s e) es = applyEffects (applyEffect s e) es from rfl]
    rw [ih, applyEffect_timeRemaining]

theorem applyEffects_isActive (es : List Effect) (s : ComponentState) :
    (applyEffects s es).isActive = s.isActive := by
  induction es generalizing s with
  | nil => rfl
  | cons e es ih =>
    rw [applyEffects, List.foldl_cons]
    rw [show List.foldl applyEffect (applyEffect s e) es = applyEffects (applyEffect s e) es from rfl]
    rw [ih, applyEffect_isActive]

theorem handleRaw_timeRemaining (s : ComponentState) (raw : RawData) :
    (handleRaw s raw).1.timeRemaining = s.timeRemaining := by
  cases raw with
  | malformed => rfl
  | wellFormed msg => exact applyEffects_timeRemaining _ _

theorem handleRaw_isActive (s : ComponentState) (raw : RawData) :
    (handleRaw s raw).1.isActive = s.isActive := by
  cases raw with
  | malformed => rfl
  | wellFormed msg => exact applyEffects_isActive _ _

/-- The core timer invariant: reachable states have at most one minute left,
and a running session always has at least one second left. -/
theorem reachable_time_bounds {s : ComponentState} (h : Reachable s) :
    s.timeRemaining ≤ CONVERSATION_DURATION ∧ (s.isActive = true → 1 ≤ s.timeRemaining) := by
  induction h with
  | init => exact ⟨Nat.le_refl _, fun hh => by simp [initState] at hh ⊢⟩
  | next e hs ih =>
    cases e with
    | start o =>
      cases o <;>
        simp [step, startConversation, startBody, startSetup, CONVERSATION_DURATION]
    | timerTick =>
      simp only [step, tick]
      split
      · rename_i hguard
        split
        · exact ⟨by simp [stopComp, CONVERSATION_DURATION], fun hh => by simp [stopComp] at hh⟩
        · rename_i hgt
          refine ⟨?_, fun _ => ?_⟩
          · exact Nat.le_trans (Nat.sub_le _ _) ih.1
          · simp only []
            omega
      · exact ih
    | stop =>
      simp [step, stopComp, CONVERSATION_DURATION]
    | message raw =>
      refine ⟨?_, ?_⟩
      · rw [step, handleRaw_timeRemaining]
        exact ih.1
      · rw [step, handleRaw_isActive, handleRaw_timeRemaining]
        exact ih.2
    | effectReset =>
      exact ih

/-- A tick does nothing once the session is inactive. -/
theorem tick_inactive_fixed {s : ComponentState} (h : s.isActive = false) : tick s = s := by
  rw [tick, if_neg]
  simp [h]

/-- From a running state with `t` seconds left, `t` ticks end the session. -/
theorem tick_iterate_stops (t : Nat) : ∀ s : ComponentState, s.isActive = true →
    s.timeRemaining = t → 1 ≤ t → (tick^[t] s).isActive = false := by
  induction t with
  | zero =>
    intro s _ _ h1
    omega
  | succ n ih =>
    intro s hact htime _
    by_cases hn : n = 0
    · subst hn
      rw [Function.iterate_one, tick, if_pos ⟨hact, by omega⟩, if_pos (by omega)]
      rfl
    · have h2 : ¬ (s.timeRemaining ≤ 1) := by omega
      rw [Function.iterate_succ_apply]
      rw [tick, if_pos ⟨hact, by omega⟩, if_neg h2]
      exact ih _ hact (by simp [htime]) (by omega)

/-! ## Claim theorems -/

/-- C2: the session is timed to one minute. `startConversation` initializes
`timeRemaining` to `CONVERSATION_DURATION = 60`; an active tick with more
than one second left decreases `timeRemaining` by exactly 1; an active tick
with at most one second left invokes `stopConversation`; every reachable
state satisfies `timeRemaining ≤ 60` (it is a `Nat`, so `0 ≤ timeRemaining`
holds trivially); and after 60 ticks from any reachable state the session is
no longer active. -/
theorem session_timer_one_minute (s : ComponentState) (o : StartOutcome) (h : Reachable s) :
    (startConversation s o).timeRemaining = CONVERSATION_DURATION
    ∧ (s.isActive = true → 1 < s.timeRemaining →
        tick s = { s with timeRemaining := s.timeRemaining - 1 })
    ∧ (s.isActive = true → s.timeRemaining ≤ 1 → tick s = stopComp s)
    ∧ s.timeRemaining ≤ CONVERSATION_DURATION
    ∧ (tick^[CONVERSATION_DURATION] s).isActive = false := by
  have hinv := reachable_time_bounds h
  refine ⟨?_, ?_, ?_, hinv.1, ?_⟩
  · cases o <;> rfl
  · intro hact hgt
    rw [tick, if_pos ⟨hact, by omega⟩, if_neg (by omega)]
  · intro hact hle
    have h1 : 1 ≤ s.timeRemaining := hinv.2 hact
    rw [tick, if_pos ⟨hact, by omega⟩, if_pos hle]
  · by_cases hact : s.isActive = true
    · have h1 : 1 ≤ s.timeRemaining := hinv.2 hact
      have hsplit : CONVERSATION_DURATION
          = (CONVERSATION_DURATION - s.timeRemaining) + s.timeRemaining := by
        have := hinv.1
        omega
      rw [hsplit, Function.iterate_add_apply]
      have hstop : (tick^[s.timeRemaining] s).isActive = false :=
        tick_iterate_stops s.timeRemaining s hact rfl h1
      rw [Function.iterate_fixed (tick_inactive_fixed hstop)]
      exact hstop
    · have hfix : tick s = s := tick_inactive_fixed (by simpa using hact)
      rw [Function.iterate_fixed hfix]
      simpa using hact

/-- C2 witness: instantiate the timer theorem at the initial state, which is
reachable by construction. -/
theorem session_timer_one_minute_witness :
    (startConversation initState StartOutcome.connected).timeRemaining = CONVERSATION_DURATION
    ∧ initState.timeRemaining ≤ CONVERSATION_DURATION :=
  ⟨(session_timer_one_minute initState StartOutcome.connected Reachable.init).1,
   (session_timer_one_minute initState StartOutcome.connected Reachable.init).2.2.2.1⟩

/-- C3: whenever any awaited step of `startConversation` throws — in
particular a non-ok bootstrap response, which throws
`Error('Failed to create session')` — the `try` body ends in an error, the
`catch` resets the component to `aiState = 'idle'` and `isActive = false`,
and `startConversation` (a total function here) lets no error escape. -/
theorem start_error_resets_to_idle (s : ComponentState) (o : StartOutcome)
    (h : o ≠ StartOutcome.connected) :
    (∃ msg s1, startBody s o = .error (msg, s1))
    ∧ startBody s StartOutcome.respNotOk = .error ("Failed to create session", startSetup s)
    ∧ (startConversation s o).aiState = AIState.idle
    ∧ (startConversation s o).isActive = false := by
  cases o with
  | connected => exact absurd rfl h
  | respNotOk => exact ⟨⟨_, _, rfl⟩, rfl, rfl, rfl⟩
  | stepThrows => exact ⟨⟨_, _, rfl⟩, rfl, rfl, rfl⟩

/-- C3 witness: a non-ok bootstrap response from the initial state. -/
theorem start_error_resets_to_idle_witness :
    (startConversation initState StartOutcome.respNotOk).aiState = AIState.idle
    ∧ (startConversation initState StartOutcome.respNotOk).isActive = false :=
  ⟨(start_error_resets_to_idle initState StartOutcome.respNotOk (by decide)).2.2.1,
   (start_error_resets_to_idle initState StartOutcome.respNotOk (by decide)).2.2.2⟩

/-- C5: the dispatch chain recognizes exactly the seven types listed in
`handledTypes`; a well-formed message of any other type leaves every
component-state field unchanged and sends nothing. -/
theorem unhandled_type_no_effect (s : ComponentState) (msg : InMsg)
    (h : msg.type ∉ handledTypes) :
    handleRaw s (RawData.wellFormed msg) = (s, []) := by
  simp only [handledTypes, List.mem_cons, List.not_mem_nil, or_false, not_or] at h
  obtain ⟨h1, h2, h3, h4, h5, h6, h7⟩ := h
  simp [handleRaw, handlerEffects, h1, h2, h3, h4, h5, h6, h7, applyEffects, sendsOf]

/-- C5 witness: an unrecognized `rate_limits.updated` message is a no-op. -/
theorem unhandled_type_no_effect_witness :
    handleRaw initState (RawData.wellFormed unknownTypeMsg) = (initState, []) :=
  unhandled_type_no_effect initState unknownTypeMsg (by decide)

/-- C6: the first message sent when the data channel opens is a
`session.update` whose configuration delegates turn detection to the server
(`server_vad`) and requests `whisper-1` input transcription; the client code
contains no voice-activity detection of its own. -/
theorem first_onopen_message_is_session_update :
    ∃ cfg rest, onOpenMessages = OutMsg.sessionUpdate cfg :: rest
      ∧ cfg.turnDetectionType = "server_vad"
      ∧ cfg.transcriptionModel = "whisper-1" :=
  ⟨sessionUpdateConfig, _, rfl, rfl, rfl⟩

/-- C8: `stopConversation` nulls all four refs, resets `aiState`,
`isActive` and `timeRemaining`, and is idempotent: a second call changes
nothing. -/
theorem stopConversation_idempotent (s : FullState) :
    (stopConversation s).refs
      = { pc := false, dataChannel := false, audioElement := false, timer := false }
    ∧ (stopConversation s).comp.aiState = AIState.idle
    ∧ (stopConversation s).comp.isActive = false
    ∧ (stopConversation s).comp.timeRemaining = CONVERSATION_DURATION
    ∧ stopConversation (stopConversation s) = stopConversation s :=
  ⟨rfl, rfl, rfl, rfl, rfl⟩

/-- C9: the message handler is total and throws nothing to its caller: a
payload `JSON.parse` rejects is swallowed by the `try/catch` with no state
change and nothing sent, and so is a tool-call message whose `arguments`
field fails to parse. (`handleRaw` is a total Lean function, so every input
produces a result.) -/
theorem handler_never_throws (s : ComponentState) (msg : InMsg)
    (ht : msg.type = "response.function_call_arguments.done")
    (ha : msg.arguments = none) :
    handleRaw s RawData.malformed = (s, [])
    ∧ handleRaw s (RawData.wellFormed msg) = (s, []) := by
  refine ⟨rfl, ?_⟩
  simp [handleRaw, handlerEffects, ht, ha, applyEffects, sendsOf]

/-- C9 witness: a malformed payload and a tool-call message with unparseable
arguments, both at the initial state. -/
theorem handler_never_throws_witness :
    handleRaw initState RawData.malformed = (initState, [])
    ∧ handleRaw initState (RawData.wellFormed badArgsMsg) = (initState, []) :=
  handler_never_throws initState badArgsMsg rfl rfl

/-- C1: a `response.function_call_arguments.done` message naming
`add_effect_to_image` whose parsed arguments contain a (truthy) effect makes
the handler execute the tool call locally — `imageEffect` becomes that
effect — and send back a `conversation.item.create` of item type
`function_call_output` with the same `call_id` and the payload
`{ success: true, effect }`, followed by a `response.create`. -/
theorem tool_call_executed_and_acked (s : ComponentState) (msg : InMsg) (args : Args)
    (e : String)
    (ht : msg.type = "response.function_call_arguments.done")
    (hn : msg.name = some "add_effect_to_image")
    (ha : msg.arguments = some args)
    (he : args.effect = some e)
    (hne : e ≠ "") :
    (handleRaw s (RawData.wellFormed msg)).1.imageEffect = e
    ∧ (handleRaw s (RawData.wellFormed msg)).2
        = [OutMsg.functionCallOutput msg.call_id true (some e), OutMsg.responseCreate] := by
  simp [handleRaw, handlerEffects, ht, hn, ha, he, hne, applyEffects, applyEffect, sendsOf]

/-- C1 witness: a concrete sparkle tool call at the initial state. -/
theorem tool_call_executed_and_acked_witness :
    (handleRaw initState (RawData.wellFormed fcDoneMsg)).1.imageEffect = "sparkle"
    ∧ (handleRaw initState (RawData.wellFormed fcDoneMsg)).2
        = [OutMsg.functionCallOutput (some "call_001") true (some "sparkle"),
           OutMsg.responseCreate] :=
  tool_call_executed_and_acked initState fcDoneMsg fcArgs "sparkle" rfl rfl rfl rfl
    (by decide)

/-- C10: every tool-call message whose arguments parse is acknowledged with
`success: true` regardless of the function name; `imageEffect` is changed
only when the name is `add_effect_to_image` and the parsed arguments carry a
truthy effect, so an unrecognized function name is acknowledged as
successful without being executed. -/
theorem ack_success_regardless_of_name (s : ComponentState) (msg : InMsg) (args : Args)
    (ht : msg.type = "response.function_call_arguments.done")
    (ha : msg.arguments = some args) :
    (handleRaw s (RawData.wellFormed msg)).2
      = [OutMsg.functionCallOutput msg.call_id true args.effect, OutMsg.responseCreate]
    ∧ (∀ e, args.effect = some e → e ≠ "" → msg.name = some "add_effect_to_image" →
        (handleRaw s (RawData.wellFormed msg)).1.imageEffect = e)
    ∧ ((handleRaw s (RawData.wellFormed msg)).1.imageEffect ≠ s.imageEffect →
        msg.name = some "add_effect_to_image" ∧ ∃ e, args.effect = some e ∧ e ≠ "") := by
  refine ⟨?_, ?_, ?_⟩
  · cases he : args.effect with
    | none => simp [handleRaw, handlerEffects, ht, ha, he, sendsOf]
    | some e =>
      by_cases hc : msg.name = some "add_effect_to_image" ∧ e ≠ ""
      · simp [handleRaw, handlerEffects, ht, ha, he, hc, sendsOf]
      · simp [handleRaw, handlerEffects, ht, ha, he, hc, sendsOf]
  · intro e he hne hn
    simp [handleRaw, handlerEffects, ht, ha, he, hne, hn, applyEffects, applyEffect]
  · intro hchanged
    cases he : args.effect with
    | none =>
      exfalso
      apply hchanged
      simp [handleRaw, handlerEffects, ht, ha, he, applyEffects, applyEffect]
    | some e =>
      by_cases hc : msg.name = some "add_effect_to_image" ∧ e ≠ ""
      · exact ⟨hc.1, e, rfl, hc.2⟩
      · exfalso
        apply hchanged
        simp [handleRaw, handlerEffects, ht, ha, he, hc, applyEffects, applyEffect]

/-- C10 witness: a tool call naming the unadvertised `play_sound` is still
acknowledged with `success: true`, and the state is untouched (its
`imageEffect` change precondition fails). -/
theorem ack_success_regardless_of_name_witness :
    (handleRaw initState (RawData.wellFormed wrongNameMsg)).2
      = [OutMsg.functionCallOutput wrongNameMsg.call_id true fcArgs.effect,
         OutMsg.responseCreate] :=
  (ack_success_regardless_of_name initState wrongNameMsg fcArgs rfl rfl).1

/-- C7: the transcript is append-only, stated per event so that each
operation's exact behavior is pinned: `startConversation` (and only it)
resets the transcript to the empty list; a timer tick, a `stopConversation`
call, the image-effect reset timeout, and an unparseable message all leave
the transcript exactly unchanged; a well-formed inbound message either
leaves it exactly unchanged or appends exactly one line to the end, and
every appended line begins with `You: ` (user transcription) or `AI: ` (a
`response.done` carrying a transcript). In particular no event reorders or
removes existing lines. -/
theorem transcript_append_only (s : ComponentState) :
    (∀ o, (step s (Event.start o)).transcript = [])
    ∧ (step s Event.timerTick).transcript = s.transcript
    ∧ (step s Event.stop).transcript = s.transcript
    ∧ (step s Event.effectReset).transcript = s.transcript
    ∧ (step s (Event.message RawData.malformed)).transcript = s.transcript
    ∧ (∀ msg : InMsg,
        (step s (Event.message (RawData.wellFormed msg))).transcript = s.transcript
        ∨ ∃ line rest,
            (step s (Event.message (RawData.wellFormed msg))).transcript
              = s.transcript ++ [line]
            ∧ (line = "You: " ++ rest ∨ line = "AI: " ++ rest)) := by
  refine ⟨?_, ?_, rfl, rfl, rfl, ?_⟩
  · intro o
    cases o <;> rfl
  · show (tick s).transcript = s.transcript
    rw [tick]
    split
    · split
      · rfl
      · rfl
    · rfl
  · intro msg
    simp only [step, handleRaw]
    by_cases h1 : msg.type = "session.created"
    · left
      simp [handlerEffects, h1, applyEffects, applyEffect]
    · by_cases h2 : msg.type = "response.audio.delta"
      · left
        simp [handlerEffects, h1, h2, applyEffects, applyEffect]
      · by_cases h3 : msg.type = "response.audio.done"
        · left
          simp [handlerEffects, h1, h2, h3, applyEffects, applyEffect]
        · by_cases h4 : msg.type = "input_audio_buffer.speech_started"
          · left
            simp [handlerEffects, h1, h2, h3, h4, applyEffects, applyEffect]
          · by_cases h5 :
              msg.type = "conversation.item.input_audio_transcription.completed"
            · right
              refine ⟨"You: " ++ optToString msg.transcript, optToString msg.transcript,
                ?_, Or.inl rfl⟩
              simp [handlerEffects, h1, h2, h3, h4, h5, applyEffects, applyEffect]
            · by_cases h6 : msg.type = "response.function_call_arguments.done"
              · left
                cases ha : msg.arguments with
                | none =>
                  simp [handlerEffects, h1, h2, h3, h4, h5, h6, ha, applyEffects]
                | some args =>
                  cases he : args.effect with
                  | none =>
                    simp [handlerEffects, h1, h2, h3, h4, h5, h6, ha, he,
                      applyEffects, applyEffect]
                  | some ev =>
                    by_cases hc : msg.name = some "add_effect_to_image" ∧ ev ≠ ""
                    · simp [handlerEffects, h1, h2, h3, h4, h5, h6, ha, he, hc,
                        applyEffects, applyEffect]
                    · simp [handlerEffects, h1, h2, h3, h4, h5, h6, ha, he, hc,
                        applyEffects, applyEffect]
              · by_cases h7 : msg.type = "response.done"
                · cases hrt : msg.responseTranscript with
                  | none =>
                    left
                    simp [handlerEffects, h1, h2, h3, h4, h5, h6, h7, hrt,
                      applyEffects]
                  | some t =>
                    by_cases hne : t ≠ ""
                    · right
                      refine ⟨"AI: " ++ t, t, ?_, Or.inr rfl⟩
                      simp [handlerEffects, h1, h2, h3, h4, h5, h6, h7, hrt, hne,
                        applyEffects, applyEffect]
                    · left
                      simp [handlerEffects, h1, h2, h3, h4, h5, h6, h7, hrt, hne,
                        applyEffects]
                · left
                  simp [handlerEffects, h1, h2, h3, h4, h5, h6, h7, applyEffects]

/-- C4 counterexample: it is false that every recognized message type is
handled with exactly one side effect. A tool call for `add_effect_to_image`
triggers four side effects (`setImageEffect`, the scheduled reset timeout,
and two `dc.send` calls), and a `response.done` without a transcript
triggers none. -/
theorem dispatch_single_effect_cex :
    (¬ ∀ msg : InMsg, msg.type ∈ handledTypes → (handlerEffects msg).length = 1)
    ∧ fcDoneMsg.type ∈ handledTypes
    ∧ (handlerEffects fcDoneMsg).length = 4
    ∧ respDoneEmptyMsg.type ∈ handledTypes
    ∧ (handlerEffects respDoneEmptyMsg).length = 0 :=
  ⟨fun h => absurd (h fcDoneMsg (by decide)) (by decide),
   by decide, by decide, by decide, by decide⟩

/-- C4 (amended): the dispatch loop is a flat chain of string-tag
comparisons, but the side-effect count is per branch: the four state-tagged
branches and the user-transcription branch perform exactly one side effect
each; the `response.function_call_arguments.done` branch (with parseable
arguments) performs four side effects when the name is `add_effect_to_image`
with a truthy effect and two (the two sends) otherwise; the `response.done`
branch performs one side effect exactly when a transcript is present. -/
theorem dispatch_effects_per_branch (msg : InMsg) (args : Args) :
    (msg.type ∈ [ "session.created", "response.audio.delta", "response.audio.done"
                , "input_audio_buffer.speech_started"
                , "conversation.item.input_audio_transcription.completed"] →
        (handlerEffects msg).length = 1)
    ∧ (msg.type = "response.function_call_arguments.done" → msg.arguments = some args →
        (handlerEffects msg).length
          = if msg.name = some "add_effect_to_image" ∧ truthy args.effect = true
            then 4 else 2)
    ∧ (msg.type = "response.done" →
        (handlerEffects msg).length
          = if truthy msg.responseTranscript = true then 1 else 0) := by
  refine ⟨?_, ?_, ?_⟩
  · intro h
    simp only [List.mem_cons, List.not_mem_nil, or_false] at h
    rcases h with h | h | h | h | h <;> simp [handlerEffects, h]
  · intro ht ha
    cases he : args.effect with
    | none =>
      simp [handlerEffects, ht, ha, he, truthy]
    | some e =>
      by_cases hc : msg.name = some "add_effect_to_image" ∧ e ≠ ""
      · simp [handlerEffects, ht, ha, he, hc, truthy, hc.2]
      · rw [Decidable.not_and_iff_or_not] at hc
        rcases hc with hc | hc
        · simp [handlerEffects, ht, ha, he, truthy, hc]
        · have he2 : e = "" := by
            by_contra hcon
            exact hc hcon
          simp [handlerEffects, ht, ha, he, truthy, he2]
  · intro ht
    cases hrt : msg.responseTranscript with
    | none =>
      simp [handlerEffects, ht, hrt, truthy]
    | some t =>
      by_cases hne : t = ""
      · simp [handlerEffects, ht, hrt, truthy, hne]
      · simp [handlerEffects, ht, hrt, truthy, hne]

/-- C4 (amended) witness: the concrete sparkle tool call lands in the
four-effect case. -/
theorem dispatch_effects_per_branch_witness :
    (handlerEffects fcDoneMsg).length
      = if fcDoneMsg.name = some "add_effect_to_image" ∧ truthy fcArgs.effect = true
        then 4 else 2 :=
  (dispatch_effects_per_branch fcDoneMsg fcArgs).2.1 rfl rfl
